import Mathlib

/-!
Shallow embedding of `src/src/components/todo-app.js`: the List Controller
(`TodoApp`) state and its `addTodo`/`updateTodo`/`removeTodo`/`resetApp`
callbacks, the Item Controller (`TodoItem`) commit logic
(`handleSubmit`/`createTodo`/`saveTodo`) and the delayed-deletion timer
effect (`destroyTodo`), together with the network requests they issue.
JS-level behaviour that matters (truthiness of `todo.id`, `Number` applied to
the numeric identifier strings the server assigns, object aliasing between an
item prop and the `todos` array, React effect cleanup order) is modelled
explicitly.
-/

/-- One list entry, as the JSON objects the app passes around: `id` is absent
on a draft (`setNewTodo({ text: "" })` at line 109), `createdAt` is absent
until `createTodo` assigns it (line 157). -/
structure Todo where
  id : Option String
  text : String
  createdAt : Option Nat
deriving DecidableEq, Repr

/-- JS truthiness test `!todo.id` (line 147): `undefined` (no identifier) and
the empty string are falsy. -/
def idFalsy : Option String → Bool
  | none => true
  | some s => s.isEmpty

/-- The value of a decimal digit character, if it is one. -/
def charDigit (c : Char) : Option Nat :=
  let n := c.toNat
  if 48 ≤ n ∧ n ≤ 57 then some (n - 48) else none

/-- Decimal value of a character list, `none` on a non-digit. -/
def digitsVal : List Char → Nat → Option Nat
  | [], acc => some acc
  | c :: cs, acc =>
    match charDigit c with
    | some d => digitsVal cs (acc * 10 + d)
    | none => none

/-- `Number(t.id)` (line 92) on the identifier strings this app sorts: their
decimal numeric value (`Number("")` is 0; identifiers are server-assigned
decimal strings, and a missing identifier or failed parse is mapped to 0,
the only cases the sort's behaviour is specified on). -/
def numId (t : Todo) : Nat := (digitsVal (t.id.getD "").data 0).getD 0

/-- Line 92: `todos.sort((a, b) => (Number(a.id) > Number(b.id) ? 1 : -1))`.
The comparator puts `a` before `b` exactly when `¬(Number(a.id) > Number(b.id))`,
i.e. `numId a ≤ numId b`; JS `Array.prototype.sort` is stable, modelled by
`List.insertionSort` on that total preorder. -/
def sortByNumId (todos : List Todo) : List Todo :=
  todos.insertionSort (fun a b => numId a ≤ numId b)

/-- Lines 82-102 of the render: the draft (`newTodo`), when present, is
rendered first (lines 83-89); the persisted todos follow, sorted ascending by
numeric id and then `.reverse()`d (lines 91-101). -/
def displayList (newTodo : Option Todo) (todos : List Todo) : List Todo :=
  newTodo.toList ++ (sortByNumId todos).reverse

/-- From the spec's words (§3 ordering invariant, for C1): the items sorted by
descending numeric identifier value. -/
def sortDescSpec (todos : List Todo) : List Todo :=
  todos.insertionSort (fun a b => numId b ≤ numId a)

section SortFacts

instance : IsTotal Todo (fun a b => numId a ≤ numId b) :=
  ⟨fun a b => Nat.le_total (numId a) (numId b)⟩

instance : IsTrans Todo (fun a b => numId a ≤ numId b) :=
  ⟨fun _ _ _ => Nat.le_trans⟩

instance : IsTotal Todo (fun a b => numId b ≤ numId a) :=
  ⟨fun a b => Nat.le_total (numId b) (numId a)⟩

instance : IsTrans Todo (fun a b => numId b ≤ numId a) :=
  ⟨fun _ _ _ h h₂ => Nat.le_trans h₂ h⟩

instance : IsAntisymm Todo (fun a b => numId b < numId a) :=
  ⟨fun _ _ h₁ h₂ => absurd (Nat.lt_trans h₁ h₂) (Nat.lt_irrefl _)⟩

/-- A weakly descending list whose numeric ids are pairwise distinct is
strictly descending. -/
lemma sorted_strict_of_sorted_ge {l : List Todo}
    (hs : l.Sorted (fun a b => numId b ≤ numId a))
    (hd : l.Pairwise (fun a b => numId a ≠ numId b)) :
    l.Sorted (fun a b => numId b < numId a) :=
  (hs.and hd).imp (fun h => by omega)

lemma numId_ne_symm : Symmetric (fun a b : Todo => numId a ≠ numId b) :=
  fun _ _ h => h.symm

lemma pairwise_numId_ne_of_perm {l₁ l₂ : List Todo} (hp : l₁.Perm l₂)
    (h : l₂.Pairwise (fun a b => numId a ≠ numId b)) :
    l₁.Pairwise (fun a b => numId a ≠ numId b) :=
  (List.Perm.pairwise_iff (R := fun a b => numId a ≠ numId b)
    (fun hxy => Ne.symm hxy) hp).mpr h

lemma sortByNumId_perm (l : List Todo) : (sortByNumId l).Perm l :=
  List.perm_insertionSort _ l

lemma sortDescSpec_perm (l : List Todo) : (sortDescSpec l).Perm l :=
  List.perm_insertionSort _ l

lemma sortByNumId_sorted (l : List Todo) :
    (sortByNumId l).Sorted (fun a b => numId a ≤ numId b) :=
  List.sorted_insertionSort _ l

lemma sortDescSpec_sorted (l : List Todo) :
    (sortDescSpec l).Sorted (fun a b => numId b ≤ numId a) :=
  List.sorted_insertionSort _ l

lemma reverse_sortByNumId_sorted (l : List Todo) :
    (sortByNumId l).reverse.Sorted (fun a b => numId b ≤ numId a) := by
  have h := sortByNumId_sorted l
  exact List.pairwise_reverse.mpr h

end SortFacts

/-- C1: for a loaded collection in which every item has an identifier (with
pairwise-distinct numeric values), the display order produced by the render is
the items sorted by descending numeric identifier value, and the sole draft,
when present, is rendered first, above all persisted items. -/
theorem display_order_desc_draft_first (newTodo : Option Todo) (todos : List Todo)
    (_hid : ∀ t ∈ todos, t.id.isSome)
    (hdist : todos.Pairwise (fun a b => numId a ≠ numId b)) :
    displayList newTodo todos = newTodo.toList ++ sortDescSpec todos := by
  unfold displayList
  congr 1
  have hperm : ((sortByNumId todos).reverse).Perm (sortDescSpec todos) :=
    (((sortByNumId todos).reverse_perm).trans (sortByNumId_perm todos)).trans
      (sortDescSpec_perm todos).symm
  have hd₁ : ((sortByNumId todos).reverse).Pairwise (fun a b => numId a ≠ numId b) :=
    pairwise_numId_ne_of_perm
      (((sortByNumId todos).reverse_perm).trans (sortByNumId_perm todos)) hdist
  have hd₂ : (sortDescSpec todos).Pairwise (fun a b => numId a ≠ numId b) :=
    pairwise_numId_ne_of_perm (sortDescSpec_perm todos) hdist
  exact List.eq_of_perm_of_sorted hperm
    (sorted_strict_of_sorted_ge (reverse_sortByNumId_sorted todos) hd₁)
    (sorted_strict_of_sorted_ge (sortDescSpec_sorted todos) hd₂)

/-- Witness for C1 at the spec §8 scenario: collection
`[{id:"2",text:"B"},{id:"1",text:"A"}]` with a draft present renders the draft
first, then ids "2", "1". -/
theorem display_order_desc_draft_first_witness :
    (∀ t ∈ [Todo.mk (some "2") "B" none, Todo.mk (some "1") "A" none], t.id.isSome) ∧
    ([Todo.mk (some "2") "B" none, Todo.mk (some "1") "A" none].Pairwise
      (fun a b => numId a ≠ numId b)) ∧
    displayList (some (Todo.mk none "" none))
        [Todo.mk (some "2") "B" none, Todo.mk (some "1") "A" none] =
      (some (Todo.mk none "" none)).toList ++
        sortDescSpec [Todo.mk (some "2") "B" none, Todo.mk (some "1") "A" none] :=
  ⟨by decide, by decide,
    display_order_desc_draft_first (some (Todo.mk none "" none))
      [Todo.mk (some "2") "B" none, Todo.mk (some "1") "A" none]
      (by decide) (by decide)⟩

/-! Item Controller (`TodoItem`, lines 132-239) and the requests it issues. -/

/-- A network request issued through `fetch` (lines 19, 159, 174, 193). The
`id` in a URL is the interpolation of `todo.id`, absent for a draft. -/
inductive Request where
  | getTodos
  | postTodo (body : Todo)
  | patchTodo (id : Option String) (body : Todo)
  | deleteTodo (id : Option String)
deriving DecidableEq, Repr

/-- Local state of one `TodoItem` instance: the edit buffer `text` (line 134),
the `isSaving` flag (line 135), the `isChecked` flag (line 136), and the
pending delayed-destroy timeout of the `isChecked` effect (lines 189-208),
recorded as its remaining milliseconds. -/
structure ItemCtl where
  text : String
  isSaving : Bool
  isChecked : Bool
  timer : Option Nat
deriving DecidableEq, Repr

/-- Result of a commit attempt: the new local state, the (possibly mutated
in place) `todo` object, and the requests issued. -/
structure SubmitOut where
  ctl : ItemCtl
  todo : Todo
  reqs : List Request
deriving DecidableEq, Repr

/-- `createTodo` (lines 154-168): sets `isSaving`, writes `todo.text = text`
and `todo.createdAt = new Date().getTime()` in place, and POSTs the todo. -/
def createTodo (now : Nat) (todo : Todo) (ctl : ItemCtl) : SubmitOut :=
  let todo2 := { todo with text := ctl.text, createdAt := some now }
  { ctl := { ctl with isSaving := true }, todo := todo2,
    reqs := [Request.postTodo todo2] }

/-- `saveTodo` (lines 170-183): sets `isSaving`, writes `todo.text = text` in
place, and PATCHes `/api/todos/${todo.id}` with the todo. -/
def saveTodo (todo : Todo) (ctl : ItemCtl) : SubmitOut :=
  let todo2 := { todo with text := ctl.text }
  { ctl := { ctl with isSaving := true }, todo := todo2,
    reqs := [Request.patchTodo todo2.id todo2] }

/-- `handleSubmit` (lines 144-152): a draft (`!todo.id`) is always created;
an identified item is saved only when `todo.text !== text`; otherwise nothing
happens. There is no `isSaving` guard in the source. -/
def handleSubmit (now : Nat) (todo : Todo) (ctl : ItemCtl) : SubmitOut :=
  if idFalsy todo.id then createTodo now todo ctl
  else if todo.text ≠ ctl.text then saveTodo todo ctl
  else { ctl := ctl, todo := todo, reqs := [] }

/-! List Controller callbacks (`TodoApp`, lines 33-57). -/

/-- `addTodo` (lines 33-36): clears the draft slot and prepends the confirmed
todo. -/
def addTodo (todo : Todo) (_newTodo : Option Todo) (todos : List Todo) :
    Option Todo × List Todo :=
  (none, todo :: todos)

/-- `updateTodo` (lines 38-44): replaces every member whose `id === todo.id`
with `todo`. -/
def updateTodo (todo : Todo) (todos : List Todo) : List Todo :=
  todos.map (fun g => if g.id = todo.id then todo else g)

/-- `removeTodo` (lines 46-50): keeps every member whose `id !== todo.id`. -/
def removeTodo (todo : Todo) (todos : List Todo) : List Todo :=
  todos.filter (fun g => g.id != todo.id)

/-- Resolution of a create request (lines 163-167): `setIsSaving(false)` then
`didCreate(confirmed)`, which is `addTodo`. -/
def didCreateResolve (confirmed : Todo) (ctl : ItemCtl) (newTodo : Option Todo)
    (todos : List Todo) : ItemCtl × Option Todo × List Todo :=
  ({ ctl with isSaving := false }, addTodo confirmed newTodo todos)

/-- Resolution of an update request (lines 178-182): `setIsSaving(false)` then
`didSave(confirmed)`, which is `updateTodo`. -/
def didSaveResolve (confirmed : Todo) (ctl : ItemCtl) (todos : List Todo) :
    ItemCtl × List Todo :=
  ({ ctl with isSaving := false }, updateTodo confirmed todos)

/-- Resolution of a delete request (lines 195-198): `setIsSaving(false)` then
`didDestroy(todo)`, which is `removeTodo`. -/
def didDestroyResolve (todo : Todo) (ctl : ItemCtl) (todos : List Todo) :
    ItemCtl × List Todo :=
  ({ ctl with isSaving := false }, removeTodo todo todos)

/-! List Controller state (`TodoApp`, lines 9-31 and 52-57). -/

/-- `TodoApp` state: `isLoading`, `todos`, `newTodo`, `refresh`, and the
`isMounted` ref (line 14). -/
structure AppState where
  isLoading : Bool
  todos : List Todo
  newTodo : Option Todo
  refresh : Nat
  mounted : Bool
deriving DecidableEq, Repr

/-- Body of the load effect (lines 16-27): `setIsLoading(true)` and the GET. -/
def loadEffectBody (s : AppState) : AppState × List Request :=
  ({ s with isLoading := true }, [Request.getTodos])

/-- Resolution of the GET (lines 21-26): applied only when
`isMounted.current` still holds. -/
def loadResolve (json : List Todo) (s : AppState) : AppState :=
  if s.mounted then { s with todos := json, isLoading := false } else s

/-- The load effect's cleanup (lines 28-30): sets `isMounted.current = false`.
It runs both at unmount and before the effect re-runs on a `refresh` change. -/
def effectCleanup (s : AppState) : AppState :=
  { s with mounted := false }

/-- `resetApp` (lines 52-57): when the `server` global is present, requests
`resetDb()` (the returned flag) and bumps `refresh`. -/
def resetApp (server : Bool) (s : AppState) : AppState × Bool :=
  if server then ({ s with refresh := s.refresh + 1 }, true) else (s, false)

/-- A full reset-and-reload round: `resetApp`, then — because `refresh`
changed — the effect's cleanup followed by its body (React runs the previous
cleanup before the next body), then the GET's resolution with the fresh
`json`. Returns the final state, the requests issued, and whether `resetDb`
was requested. -/
def refreshCycle (server : Bool) (json : List Todo) (s : AppState) :
    AppState × List Request × Bool :=
  let r := resetApp server s
  if r.1.refresh ≠ s.refresh then
    let b := loadEffectBody (effectCleanup r.1)
    (loadResolve json b.1, b.2, r.2)
  else (r.1, [], r.2)

/-- C5: a load result that arrives after the controller has been torn down
(the cleanup has set `isMounted.current = false`) is silently discarded:
neither the collection nor the loading flag nor anything else changes. -/
theorem stale_load_discarded (s : AppState) (json : List Todo) :
    loadResolve json (effectCleanup s) = effectCleanup s := by
  simp [loadResolve, effectCleanup]

/-- C10: `updateTodo` preserves length and leaves every member whose
identifier differs from the argument's in place unchanged; `removeTodo` keeps
every member whose identifier differs; when no member's identifier matches,
both leave the collection exactly unchanged. -/
theorem update_remove_frame (todo : Todo) (todos : List Todo) :
    (updateTodo todo todos).length = todos.length ∧
    (∀ (n : Nat) (g : Todo), todos[n]? = some g → g.id ≠ todo.id →
      (updateTodo todo todos)[n]? = some g) ∧
    (∀ g ∈ todos, g.id ≠ todo.id → g ∈ removeTodo todo todos) ∧
    ((∀ g ∈ todos, g.id ≠ todo.id) →
      updateTodo todo todos = todos ∧ removeTodo todo todos = todos) := by
  refine ⟨by simp [updateTodo], ?_, ?_, ?_⟩
  · intro n g hg hne
    simp [updateTodo, List.getElem?_map, hg, hne]
  · intro g hg hne
    simp [removeTodo, List.mem_filter, hg, hne]
  · intro hall
    constructor
    · have h : todos.map (fun g => if g.id = todo.id then todo else g)
          = todos.map id := by
        apply List.map_congr_left
        intro g hg
        simp [hall g hg]
      simpa [updateTodo] using h
    · apply List.filter_eq_self.mpr
      intro g hg
      simpa using hall g hg

/-- Witness for C10 on a two-element collection and a non-member argument. -/
theorem update_remove_frame_witness :
    ([Todo.mk (some "1") "A" none, Todo.mk (some "2") "B" none][0]?
        = some (Todo.mk (some "1") "A" none)) ∧
    (Todo.mk (some "1") "A" none).id ≠ (Todo.mk (some "9") "X" none).id ∧
    (updateTodo (Todo.mk (some "9") "X" none)
        [Todo.mk (some "1") "A" none, Todo.mk (some "2") "B" none])[0]?
      = some (Todo.mk (some "1") "A" none) :=
  ⟨by decide, by decide,
    (update_remove_frame (Todo.mk (some "9") "X" none)
        [Todo.mk (some "1") "A" none, Todo.mk (some "2") "B" none]).2.1
      0 (Todo.mk (some "1") "A" none) (by decide) (by decide)⟩

/-- C3: a commit attempt on a draft (no identifier) always issues exactly one
create request carrying the buffer text and the client-assigned creation
timestamp — no buffer-change test is made — and on success `addTodo` clears
the draft slot and the collection gains exactly one member, the confirmed
server-identified item. -/
theorem draft_commit_creates (now : Nat) (todo : Todo) (ctl : ItemCtl)
    (newTodo : Option Todo) (todos : List Todo) (confirmed : Todo)
    (hdraft : idFalsy todo.id = true) :
    (handleSubmit now todo ctl).reqs
        = [Request.postTodo { todo with text := ctl.text, createdAt := some now }] ∧
    (handleSubmit now todo ctl).ctl = { ctl with isSaving := true } ∧
    (addTodo confirmed newTodo todos).1 = none ∧
    (addTodo confirmed newTodo todos).2 = confirmed :: todos ∧
    (addTodo confirmed newTodo todos).2.length = todos.length + 1 := by
  simp [handleSubmit, hdraft, createTodo, addTodo]

/-- Witness for C3: a fresh draft with buffer "C" committed at time 7,
confirmed by the server as id "3". -/
theorem draft_commit_creates_witness :
    idFalsy (Todo.mk none "" none).id = true ∧
    (handleSubmit 7 (Todo.mk none "" none) (ItemCtl.mk "C" false false none)).reqs
      = [Request.postTodo (Todo.mk none "C" (some 7))] :=
  ⟨by decide,
    (draft_commit_creates 7 (Todo.mk none "" none) (ItemCtl.mk "C" false false none)
      none [] (Todo.mk (some "3") "C" (some 7)) (by decide)).1⟩

/-- C4: a commit attempt on an identified item issues a request exactly when
the buffer differs from the last-committed text: an unchanged buffer is a
complete no-op, a changed buffer issues exactly one update request for that
identifier, and the confirmed result is folded in via `updateTodo`. -/
theorem persisted_commit_iff_changed (now : Nat) (todo : Todo) (ctl : ItemCtl)
    (todos : List Todo) (confirmed : Todo)
    (hid : idFalsy todo.id = false) :
    ((handleSubmit now todo ctl).reqs ≠ [] ↔ todo.text ≠ ctl.text) ∧
    (todo.text = ctl.text → handleSubmit now todo ctl = ⟨ctl, todo, []⟩) ∧
    (todo.text ≠ ctl.text →
      (handleSubmit now todo ctl).reqs
        = [Request.patchTodo todo.id { todo with text := ctl.text }]) ∧
    didSaveResolve confirmed ctl todos
      = ({ ctl with isSaving := false }, updateTodo confirmed todos) := by
  by_cases h : todo.text = ctl.text <;>
    simp [handleSubmit, hid, saveTodo, didSaveResolve, h]

/-- Witness for C4: id "1" with committed text "A"; an unchanged buffer "A"
issues nothing. -/
theorem persisted_commit_iff_changed_witness :
    idFalsy (Todo.mk (some "1") "A" none).id = false ∧
    ((Todo.mk (some "1") "A" none).text = "A" →
      handleSubmit 5 (Todo.mk (some "1") "A" none) (ItemCtl.mk "A" false false none)
        = ⟨ItemCtl.mk "A" false false none, Todo.mk (some "1") "A" none, []⟩) :=
  ⟨by decide,
    (persisted_commit_iff_changed 5 (Todo.mk (some "1") "A" none)
      (ItemCtl.mk "A" false false none) [] (Todo.mk (some "1") "A" none)
      (by decide)).2.1⟩

/-! The delayed-deletion gesture (`TodoItem`, lines 185-208, 216-223). -/

/-- The fixed delayed-deletion delay (line 204): 1250 ms. -/
def destroyDelay : Nat := 1250

/-- An event in the life of one item's check gesture: the checkbox change
handler firing with the new checked value (lines 185-187), or the passage of
`d` milliseconds of real time. -/
inductive TAct where
  | setChecked (b : Bool)
  | elapse (d : Nat)
deriving DecidableEq, Repr

/-- One event of the delayed-deletion machinery. `setChecked b`: the checkbox
is `disabled` while `isSaving` (line 222), and the `[isChecked]` effect
(lines 189-208) re-runs only when the value actually changes; its cleanup
`clearTimeout`s any pending timer (line 206) and the new run schedules a
fresh `destroyDelay` timeout exactly when now checked (lines 201-204).
`elapse d`: a pending timeout with at most `d` ms remaining fires
`destroyTodo` (lines 190-199): `setIsSaving(true)` and one DELETE request for
`todo.id`. -/
def tstep (todo : Todo) : ItemCtl × List Request → TAct → ItemCtl × List Request
  | (ctl, reqs), TAct.setChecked b =>
    if ctl.isSaving then (ctl, reqs)
    else if b = ctl.isChecked then (ctl, reqs)
    else ({ ctl with
              isChecked := b
              timer := if b then some destroyDelay else none }, reqs)
  | (ctl, reqs), TAct.elapse d =>
    match ctl.timer with
    | none => (ctl, reqs)
    | some r =>
      if r ≤ d then
        ({ ctl with timer := none, isSaving := true },
         reqs ++ [Request.deleteTodo todo.id])
      else ({ ctl with timer := some (r - d) }, reqs)

/-- Run a sequence of gesture events. -/
def trun (todo : Todo) (s : ItemCtl × List Request) : List TAct → ItemCtl × List Request
  | [] => s
  | a :: rest => trun todo (tstep todo s a) rest

lemma trun_append (todo : Todo) (s : ItemCtl × List Request) (l₁ l₂ : List TAct) :
    trun todo s (l₁ ++ l₂) = trun todo (trun todo s l₁) l₂ := by
  induction l₁ generalizing s with
  | nil => rfl
  | cons a rest ih => simp [trun, ih]

/-- With no pending timer, the passage of time does nothing. -/
lemma trun_elapse_none (todo : Todo) (t : String) (sv ck : Bool)
    (reqs : List Request) (ds : List Nat) :
    trun todo (⟨t, sv, ck, none⟩, reqs) (ds.map TAct.elapse)
      = (⟨t, sv, ck, none⟩, reqs) := by
  induction ds with
  | nil => rfl
  | cons d rest ih => simpa [trun, tstep] using ih

/-- Time strictly short of the pending timer only counts it down. -/
lemma trun_elapse_lt (todo : Todo) (t : String) (sv ck : Bool)
    (reqs : List Request) (r : Nat) (ds : List Nat) (hlt : ds.sum < r) :
    trun todo (⟨t, sv, ck, some r⟩, reqs) (ds.map TAct.elapse)
      = (⟨t, sv, ck, some (r - ds.sum)⟩, reqs) := by
  induction ds generalizing r with
  | nil => simp [trun]
  | cons d rest ih =>
    have hsum : d + rest.sum < r := by simpa using hlt
    have hd : ¬ r ≤ d := by omega
    have h₁ : rest.sum < r - d := by omega
    have h₂ : r - d - rest.sum = r - (d + rest.sum) := by omega
    simp only [List.map_cons, trun, tstep, hd, if_false]
    rw [ih (r - d) h₁, h₂]
    simp [List.sum_cons]

/-- Once the cumulative elapsed time reaches the pending timer, the destroy
fires exactly once: one DELETE request is appended, `isSaving` is set away,
and the timer is gone (so later time changes nothing). -/
lemma trun_elapse_ge (todo : Todo) (t : String) (sv ck : Bool)
    (reqs : List Request) (r : Nat) (ds : List Nat) (hr : 0 < r)
    (hge : r ≤ ds.sum) :
    trun todo (⟨t, sv, ck, some r⟩, reqs) (ds.map TAct.elapse)
      = (⟨t, true, ck, none⟩, reqs ++ [Request.deleteTodo todo.id]) := by
  induction ds generalizing r with
  | nil => simp at hge; omega
  | cons d rest ih =>
    by_cases hd : r ≤ d
    · simp only [List.map_cons, trun, tstep, hd, if_true]
      exact trun_elapse_none todo t true ck _ rest
    · have h₁ : 0 < r - d := by omega
      have h₂ : r - d ≤ rest.sum := by
        have := hge
        simp [List.sum_cons] at this
        omega
      simp only [List.map_cons, trun, tstep, hd, if_false]
      exact ih (r - d) h₁ h₂

/-- C2: for an identified item starting unchecked and idle, (a) toggling the
check gesture on and letting the full fixed delay elapse issues exactly one
delete request for that identifier; (b) toggling off strictly before the delay
elapses cancels the timer and restores the initial state, with zero network
effect (so the item stays in the collection); (c) toggling off and on again
restarts the full countdown rather than stacking a second one; (d) while the
cumulative elapsed time is short of the delay no request is issued; (e) on
delete success `removeTodo` leaves no member with that identifier in the
collection. -/
theorem delayed_delete_gesture (todo : Todo) (i : String) (hi : todo.id = some i)
    (buf : String) (reqs0 : List Request) :
    (∀ ds : List Nat, destroyDelay ≤ ds.sum →
      trun todo (⟨buf, false, false, none⟩, reqs0)
          (TAct.setChecked true :: ds.map TAct.elapse)
        = (⟨buf, true, true, none⟩, reqs0 ++ [Request.deleteTodo (some i)])) ∧
    (∀ ds : List Nat, ds.sum < destroyDelay →
      trun todo (⟨buf, false, false, none⟩, reqs0)
          (TAct.setChecked true :: (ds.map TAct.elapse ++ [TAct.setChecked false]))
        = (⟨buf, false, false, none⟩, reqs0)) ∧
    (∀ ds : List Nat, ds.sum < destroyDelay →
      trun todo (⟨buf, false, false, none⟩, reqs0)
          (TAct.setChecked true ::
            (ds.map TAct.elapse ++ [TAct.setChecked false, TAct.setChecked true]))
        = (⟨buf, false, true, some destroyDelay⟩, reqs0)) ∧
    (∀ ds : List Nat, ds.sum < destroyDelay →
      (trun todo (⟨buf, false, false, none⟩, reqs0)
          (TAct.setChecked true :: ds.map TAct.elapse)).2 = reqs0) ∧
    (∀ todos : List Todo, ∀ g ∈ removeTodo todo todos, g.id ≠ todo.id) := by
  have hstep : tstep todo (⟨buf, false, false, none⟩, reqs0) (TAct.setChecked true)
      = (⟨buf, false, true, some destroyDelay⟩, reqs0) := by
    simp [tstep]
  refine ⟨?_, ?_, ?_, ?_, ?_⟩
  · intro ds h
    have : trun todo (⟨buf, false, false, none⟩, reqs0)
        (TAct.setChecked true :: ds.map TAct.elapse)
        = trun todo (⟨buf, false, true, some destroyDelay⟩, reqs0)
            (ds.map TAct.elapse) := by
      simp [trun, hstep]
    rw [this, trun_elapse_ge todo buf false true reqs0 destroyDelay ds
      (by decide) h, hi]
  · intro ds h
    have h₁ : trun todo (⟨buf, false, false, none⟩, reqs0)
        (TAct.setChecked true :: (ds.map TAct.elapse ++ [TAct.setChecked false]))
        = trun todo (trun todo (⟨buf, false, true, some destroyDelay⟩, reqs0)
            (ds.map TAct.elapse)) [TAct.setChecked false] := by
      simp [trun, hstep, trun_append]
    rw [h₁, trun_elapse_lt todo buf false true reqs0 destroyDelay ds h]
    simp [trun, tstep]
  · intro ds h
    have h₁ : trun todo (⟨buf, false, false, none⟩, reqs0)
        (TAct.setChecked true ::
          (ds.map TAct.elapse ++ [TAct.setChecked false, TAct.setChecked true]))
        = trun todo (trun todo (⟨buf, false, true, some destroyDelay⟩, reqs0)
            (ds.map TAct.elapse)) [TAct.setChecked false, TAct.setChecked true] := by
      simp [trun, hstep, trun_append]
    rw [h₁, trun_elapse_lt todo buf false true reqs0 destroyDelay ds h]
    simp [trun, tstep]
  · intro ds h
    have h₁ : trun todo (⟨buf, false, false, none⟩, reqs0)
        (TAct.setChecked true :: ds.map TAct.elapse)
        = trun todo (⟨buf, false, true, some destroyDelay⟩, reqs0)
            (ds.map TAct.elapse) := by
      simp [trun, hstep]
    rw [h₁, trun_elapse_lt todo buf false true reqs0 destroyDelay ds h]
  · intro todos g hg
    have h := List.of_mem_filter hg
    simpa using h

/-- Witness for C2: item id "2", gesture toggled on, 1250 ms elapse: exactly
one delete request is issued. -/
theorem delayed_delete_gesture_witness :
    (Todo.mk (some "2") "B" none).id = some "2" ∧
    destroyDelay ≤ [(1250 : Nat)].sum ∧
    trun (Todo.mk (some "2") "B" none) (⟨"B", false, false, none⟩, [])
        (TAct.setChecked true :: [(1250 : Nat)].map TAct.elapse)
      = (⟨"B", true, true, none⟩, [] ++ [Request.deleteTodo (some "2")]) :=
  ⟨rfl, by decide,
    (delayed_delete_gesture (Todo.mk (some "2") "B" none) "2" rfl "B" []).1
      [(1250 : Nat)] (by decide)⟩

/-! The checkbox as rendered, and the app-level view of a commit (aliasing). -/

/-- The checkbox of one item as rendered (lines 216-223): it is always
rendered; the class string gets `opacity-0` (fully transparent) exactly when
`!todo.id`; it is `disabled` exactly while `isSaving`; the change handler is
attached unconditionally. -/
structure CheckboxView where
  rendered : Bool
  invisible : Bool
  disabled : Bool
deriving DecidableEq, Repr

/-- Render of the checkbox (lines 216-223). -/
def renderCheckbox (todo : Todo) (ctl : ItemCtl) : CheckboxView :=
  { rendered := true, invisible := idFalsy todo.id, disabled := ctl.isSaving }

/-- A commit attempt seen at app level. The `todo` prop of a persisted item IS
the member of the `todos` array bearing its id (the render at lines 94-100
passes the array's own elements), so the in-place writes `todo.text = text`
(lines 156, 172) and `todo.createdAt = ...` (line 157) reach the collection
the moment the commit is issued: the collection member with the committed
item's id is the mutated object, before any network resolution. -/
def appCommitIssue (now : Nat) (todo : Todo) (ctl : ItemCtl) (todos : List Todo) :
    SubmitOut × List Todo :=
  let o := handleSubmit now todo ctl
  (o, todos.map (fun g => if g.id = todo.id then o.todo else g))

/-- The committed object keeps its identifier through `handleSubmit`. -/
lemma handleSubmit_id (now : Nat) (todo : Todo) (ctl : ItemCtl) :
    (handleSubmit now todo ctl).todo.id = todo.id := by
  by_cases h₁ : idFalsy todo.id = true <;>
    by_cases h₂ : todo.text = ctl.text <;>
      simp [handleSubmit, createTodo, saveTodo, h₁, h₂]

/-- C6, counterexample: with the one-member collection `[{id:"1",text:"A"}]`
and its member being edited to buffer "B", issuing the update commit already
changes the committed text of the collection member to "B" — while the PATCH
request is still outstanding, before any confirmed completion is applied via
`add`, `update` or `remove`. -/
theorem speculative_member_mutation_on_save :
    (appCommitIssue 9 (Todo.mk (some "1") "A" (some 1))
        (ItemCtl.mk "B" false false none)
        [Todo.mk (some "1") "A" (some 1)]).2
      = [Todo.mk (some "1") "B" (some 1)] ∧
    (appCommitIssue 9 (Todo.mk (some "1") "A" (some 1))
        (ItemCtl.mk "B" false false none)
        [Todo.mk (some "1") "A" (some 1)]).1.reqs
      = [Request.patchTodo (some "1") (Todo.mk (some "1") "B" (some 1))] := by
  constructor <;> rfl

/-- C6, amended: at the moment a commit is issued no member joins or leaves
the collection (the identifier sequence is unchanged), every member whose
identifier differs from the committed item's is untouched, and a draft commit
leaves the whole collection untouched; but the member aliased by a persisted
item being committed with a changed buffer has its text overwritten in place
to the buffer right away, before the network result resolves. Membership only
changes when a confirmed completion is applied via `addTodo`, `updateTodo` or
`removeTodo`. -/
theorem commit_issue_frame (now : Nat) (todo : Todo) (ctl : ItemCtl)
    (todos : List Todo) :
    ((appCommitIssue now todo ctl todos).2.map Todo.id = todos.map Todo.id) ∧
    (∀ (n : Nat) (g : Todo), todos[n]? = some g → g.id ≠ todo.id →
      (appCommitIssue now todo ctl todos).2[n]? = some g) ∧
    (idFalsy todo.id = true → (∀ g ∈ todos, g.id ≠ todo.id) →
      (appCommitIssue now todo ctl todos).2 = todos) ∧
    (idFalsy todo.id = false → todo.text ≠ ctl.text →
      ∀ (n : Nat) (g : Todo), todos[n]? = some g → g.id = todo.id →
        (appCommitIssue now todo ctl todos).2[n]?
          = some { todo with text := ctl.text }) := by
  refine ⟨?_, ?_, ?_, ?_⟩
  · simp only [appCommitIssue, List.map_map]
    apply List.map_congr_left
    intro g hg
    by_cases h : g.id = todo.id <;>
      simp [h, handleSubmit_id]
  · intro n g hg hne
    simp [appCommitIssue, List.getElem?_map, hg, hne]
  · intro hdraft hall
    simp only [appCommitIssue]
    have h : todos.map
        (fun g => if g.id = todo.id then (handleSubmit now todo ctl).todo else g)
        = todos.map id := by
      apply List.map_congr_left
      intro g hg
      simp [hall g hg]
    simpa using h
  · intro hid hch n g hg hgid
    have h : (handleSubmit now todo ctl).todo = { todo with text := ctl.text } := by
      simp [handleSubmit, hid, hch, saveTodo]
    simp [appCommitIssue, List.getElem?_map, hg, hgid, h]

/-- Witness for C6 amended: a non-matching member is untouched at issue
time. -/
theorem commit_issue_frame_witness :
    ([Todo.mk (some "3") "C" none][0]? = some (Todo.mk (some "3") "C" none)) ∧
    (Todo.mk (some "3") "C" none).id ≠ (Todo.mk (some "1") "A" none).id ∧
    (appCommitIssue 4 (Todo.mk (some "1") "A" none)
        (ItemCtl.mk "B" false false none)
        [Todo.mk (some "3") "C" none]).2[0]?
      = some (Todo.mk (some "3") "C" none) :=
  ⟨by decide, by decide,
    (commit_issue_frame 4 (Todo.mk (some "1") "A" none)
        (ItemCtl.mk "B" false false none) [Todo.mk (some "3") "C" none]).2.1
      0 (Todo.mk (some "3") "C" none) (by decide) (by decide)⟩

/-- C7, the code at the failing input: a commit attempt on a draft whose
create request is still outstanding (`isSaving = true`) is NOT a no-op —
`handleSubmit` has no `isSaving` guard, so a second create request is issued
and the draft object is mutated again. -/
theorem commit_while_saving_not_noop :
    (handleSubmit 42 (Todo.mk none "" none)
        (ItemCtl.mk "hello" true false none)).reqs
      = [Request.postTodo (Todo.mk none "hello" (some 42))] ∧
    (handleSubmit 42 (Todo.mk none "" none)
        (ItemCtl.mk "hello" true false none)).todo
      = Todo.mk none "hello" (some 42) := by
  constructor <;> rfl

/-- C9, counterexample: for a draft the check control is merely rendered
fully transparent (`opacity-0`) — it stays rendered and, while not saving,
enabled, and its change handler is attached; delivering the check gesture to
it and letting the delay elapse schedules and issues a delete request for an
item with no identifier. -/
theorem draft_checkbox_still_active :
    renderCheckbox (Todo.mk none "" none) (ItemCtl.mk "" false false none)
      = CheckboxView.mk true true false ∧
    (trun (Todo.mk none "" none) (⟨"", false, false, none⟩, [])
        [TAct.setChecked true, TAct.elapse 1250]).2
      = [Request.deleteTodo none] := by
  constructor <;> rfl

/-- C9, amended: for every draft (no identifier) the check control is rendered
fully transparent, so it is not visually exposed; but it remains rendered and
(while not saving) enabled, and if the gesture is nonetheless delivered (e.g.
via keyboard focus) the delayed deletion runs and issues a delete request
whose identifier is absent. -/
theorem draft_checkbox_hidden_not_disabled (todo : Todo) (ctl : ItemCtl)
    (buf : String) (reqs0 : List Request)
    (hdraft : idFalsy todo.id = true) :
    (renderCheckbox todo ctl).invisible = true ∧
    (renderCheckbox todo ctl).rendered = true ∧
    (ctl.isSaving = false → (renderCheckbox todo ctl).disabled = false) ∧
    trun todo (⟨buf, false, false, none⟩, reqs0)
        [TAct.setChecked true, TAct.elapse destroyDelay]
      = (⟨buf, true, true, none⟩, reqs0 ++ [Request.deleteTodo todo.id]) := by
  refine ⟨by simp [renderCheckbox, hdraft], by simp [renderCheckbox], ?_, ?_⟩
  · intro h
    simp [renderCheckbox, h]
  · simp [trun, tstep, destroyDelay]

/-- Witness for C9 amended at the concrete draft. -/
theorem draft_checkbox_hidden_not_disabled_witness :
    idFalsy (Todo.mk none "" none).id = true ∧
    (renderCheckbox (Todo.mk none "" none)
      (ItemCtl.mk "" false false none)).invisible = true :=
  ⟨by decide,
    (draft_checkbox_hidden_not_disabled (Todo.mk none "" none)
      (ItemCtl.mk "" false false none) "" [] (by decide)).1⟩

/-- C8, the code at the failing input: `resetApp` does request `resetDb` and
does re-trigger the load, but the effect cleanup that runs on the `refresh`
change sets `isMounted.current` to `false` — and nothing ever sets it back —
so the reload's resolution is discarded: the collection keeps its old value
and the loading flag stays set forever. -/
theorem reset_reload_result_discarded :
    (refreshCycle true [Todo.mk (some "1") "new" none, Todo.mk (some "2") "C" none]
        (AppState.mk false [Todo.mk (some "1") "old" none] none 0 true)).2.2
      = true ∧
    (refreshCycle true [Todo.mk (some "1") "new" none, Todo.mk (some "2") "C" none]
        (AppState.mk false [Todo.mk (some "1") "old" none] none 0 true)).2.1
      = [Request.getTodos] ∧
    (refreshCycle true [Todo.mk (some "1") "new" none, Todo.mk (some "2") "C" none]
        (AppState.mk false [Todo.mk (some "1") "old" none] none 0 true)).1.todos
      = [Todo.mk (some "1") "old" none] ∧
    (refreshCycle true [Todo.mk (some "1") "new" none, Todo.mk (some "2") "C" none]
        (AppState.mk false [Todo.mk (some "1") "old" none] none 0 true)).1.isLoading
      = true := by
  refine ⟨rfl, rfl, rfl, rfl⟩
